import Mathlib

/-!
Verification of the Sync-Player synchronization server (src/server.js).

This file gives a shallow embedding of the data model and the socket event
handlers of the server core, together with theorems settling the stated
properties of the specification.  JavaScript numbers that the handlers treat
as integers are modelled as `Int`; wall-clock timestamps as `Nat` parameters;
JavaScript objects used as dictionaries as association lists updated in
place; the filesystem and the ffprobe subprocess as oracle parameters.
JavaScript strings are modelled as `String`, with the string operations the
server uses re-implemented over the character list so that all definitions
reduce by kernel evaluation.
-/

namespace SyncPlayer

/-! ## String helpers mirroring the JavaScript string operations -/

/-- JavaScript `s.toLowerCase()` (ASCII, which covers every string the
server compares: filenames, MIME types, room codes). -/
def lowerStr (s : String) : String := String.mk (s.data.map Char.toLower)

/-- JavaScript `s.toUpperCase()` (ASCII). -/
def upperStr (s : String) : String := String.mk (s.data.map Char.toUpper)

def isPrefixChars : List Char → List Char → Bool
  | [], _ => true
  | _ :: _, [] => false
  | a :: as, b :: bs => a == b && isPrefixChars as bs

/-- JavaScript `s.startsWith(p)`. -/
def strStartsWith (s p : String) : Bool := isPrefixChars p.data s.data

/-- JavaScript `s.endsWith(p)`. -/
def strEndsWith (s p : String) : Bool := isPrefixChars p.data.reverse s.data.reverse

/-- The suffix of a name starting at the last dot, dot included; the whole
name when it has no dot.  This is `name.substring(name.lastIndexOf('.'))`:
`lastIndexOf` yields `-1` when absent and `substring` clamps `-1` to `0`. -/
def fromLastDot : List Char → List Char
  | [] => []
  | c :: cs =>
    if cs.contains '.' then fromLastDot cs
    else if c == '.' then c :: cs
    else c :: cs

/-- The suffix after the last `/`, i.e. POSIX `path.basename` on the names
the server passes it (plain basenames and slash-separated paths). -/
def afterLastSlash : List Char → List Char
  | [] => []
  | c :: cs =>
    if cs.contains '/' then afterLastSlash cs
    else if c == '/' then cs
    else c :: cs

/-- `path.basename(filename)` as used in `getTracksForFile`. -/
def jsBasename (s : String) : String := String.mk (afterLastSlash s.data)

/-- The part of a MIME string before the first `/`:
`expectedMime.split('/')[0]`. -/
def beforeFirstSlash : List Char → List Char
  | [] => []
  | c :: cs => if c == '/' then [] else c :: beforeFirstSlash cs

def mimeFamily (s : String) : String := String.mk (beforeFirstSlash s.data)

/-- Adjacent `..` somewhere in the name: `filename.includes('..')`. -/
def hasDoubleDot : List Char → Bool
  | [] => false
  | [_] => false
  | a :: b :: rest => (a == '.' && b == '.') || hasDoubleDot (b :: rest)

/-- `clientId.slice(-n)`: the last `n` characters. -/
def sliceLast (s : String) (n : Nat) : String :=
  String.mk (s.data.drop (s.data.length - n))

/-! ## Filename validation (src/server.js `validateFilename`, lines 598-630) -/

/-- JavaScript regex `\w` for the non-Unicode patterns the server uses. -/
def isWordChar (c : Char) : Bool := c.isAlphanum || c == '_'

/-- JavaScript regex `\s` on the characters that can appear here (ASCII
whitespace and NBSP; the further Unicode space characters never meet any
other validator clause differently, and no claim depends on them). -/
def isJsWhitespace (c : Char) : Bool :=
  c == ' ' || c == '\t' || c == '\n' || c == '\r' ||
  c == Char.ofNat 11 || c == Char.ofNat 12 || c == Char.ofNat 160

/-- The class `[;&|$`<>\n\r]` of rejected shell metacharacters. -/
def shellMetachar (c : Char) : Bool :=
  c == ';' || c == '&' || c == '|' || c == '$' || c == Char.ofNat 96 ||
  c == '<' || c == '>' || c == '\n' || c == '\r'

/-- The whitelist class `[\w\s\-.()\[\]]` of the safe-filename pattern. -/
def safeFilenameChar (c : Char) : Bool :=
  isWordChar c || isJsWhitespace c || c == '-' || c == '.' ||
  c == '(' || c == ')' || c == '[' || c == ']'

inductive FilenameCheck where
  | invalid (error : String)
  | valid (sanitized : String)
deriving DecidableEq, Repr

/-- `validateFilename(filename)`: non-empty, at most 255 characters, no
`..` pair, no path separators, no shell metacharacters, every character in
the safe class; on success the sanitized value is `path.basename`. -/
def validateFilename (filename : String) : FilenameCheck :=
  if filename.data.length == 0 then
    .invalid "Filename must be a non-empty string"
  else if filename.data.length > 255 then
    .invalid "Filename too long (max 255 characters)"
  else if hasDoubleDot filename.data || filename.data.contains '/' ||
      filename.data.contains '\\' then
    .invalid "Path traversal characters not allowed"
  else if filename.data.any shellMetachar then
    .invalid "Filename contains disallowed shell metacharacters"
  else if !(filename.data.length > 0 && filename.data.all safeFilenameChar) then
    .invalid "Filename contains disallowed characters"
  else
    .valid (jsBasename filename)

/-! ## Association-list helpers

JavaScript objects used as dictionaries (`matchedVideos`, `clientDrifts`)
and `Map`s are modelled as association lists; assignment `obj[k] = v`
replaces the binding in place or appends a new one. -/

def updateAssoc {κ α : Type} [BEq κ] : List (κ × α) → κ → α → List (κ × α)
  | [], k, v => [(k, v)]
  | (k2, v2) :: rest, k, v =>
    if k2 == k then (k, v) :: rest else (k2, v2) :: updateAssoc rest k v

def removeAssoc {κ α : Type} [BEq κ] : List (κ × α) → κ → List (κ × α)
  | [], _ => []
  | (k2, v2) :: rest, k =>
    if k2 == k then rest else (k2, v2) :: removeAssoc rest k

/-! ## Data model (src/server.js `Room` class and module state) -/

structure TrackInfo where
  index : Nat
  codec : String
  language : String
  title : String
  default : Bool
deriving DecidableEq, Repr

structure Tracks where
  audio : List TrackInfo
  subtitles : List TrackInfo
deriving DecidableEq, Repr

/-- A playlist entry as stored by `set-playlist`. -/
structure Video where
  filename : String
  isExternal : Bool
  tracks : Tracks
  selectedAudioTrack : Option Int
  selectedSubtitleTrack : Option Int
  usesHEVC : Bool
deriving DecidableEq, Repr

structure Playlist where
  videos : List Video
  currentIndex : Int
  mainVideoIndex : Int
  mainVideoStartTime : Int
  preloadMainVideo : Bool
deriving DecidableEq, Repr

structure VideoState where
  isPlaying : Bool
  currentTime : Int
  lastUpdate : Nat
  audioTrack : Int
  subtitleTrack : Int
deriving DecidableEq, Repr

/-- The playlist of a fresh `Room` (constructor, lines 844-850) and the
legacy module-level `PLAYLIST` (lines 1243-1249). -/
def initialPlaylist : Playlist :=
  { videos := []
    currentIndex := -1
    mainVideoIndex := -1
    mainVideoStartTime := 0
    preloadMainVideo := false }

/-- The video state of a fresh `Room` (lines 852-858) and the legacy
module-level `videoState` (lines 1251-1257). -/
def initialVideoState (now : Nat) : VideoState :=
  { isPlaying := true
    currentTime := 0
    lastUpdate := now
    audioTrack := 0
    subtitleTrack := -1 }

/-- JavaScript `videos[i]` for an integer index: `undefined` off range. -/
def getVideoAt (videos : List Video) (i : Int) : Option Video :=
  if 0 ≤ i then videos.get? i.toNat else none

/-- `video.selectedAudioTrack !== undefined ? video.selectedAudioTrack : 0`. -/
def audioSel (v : Video) : Int := v.selectedAudioTrack.getD 0

/-- `video.selectedSubtitleTrack !== undefined ? ... : -1`. -/
def subtitleSel (v : Video) : Int := v.selectedSubtitleTrack.getD (-1)

/-- The playlist-index validator of the event router (lines 1765-1769):
an integer in `[0, videos.length)`. -/
def validatePlaylistIndex (index : Int) (p : Playlist) : Bool :=
  decide (0 ≤ index) && decide (index < (p.videos.length : Int))

/-! ## Playlist navigation handlers

Each handler is embedded after the room (or legacy target) has been
resolved, as a pure function of the target playlist, the target video
state, the message payload and the wall clock.  The emitted events are
returned alongside the new state. -/

structure PlaylistStepResult where
  playlist : Playlist
  videoState : VideoState
  emittedSync : Bool
  emittedPosition : Option Int
  emittedPlaylistUpdate : Bool
  /-- The JavaScript handler threw a `TypeError` at `videos[nextIndex]`
  being `undefined`; mutations before that point survive, emits after it
  are skipped. -/
  threw : Bool
deriving DecidableEq, Repr

/-- `socket.on('playlist-next')` (lines 2486-2519): stores the received
index without any bound check, realigns the track selections when the
index happens to denote a video, and fans out `sync` and
`playlist-position`. -/
def playlistNext (p : Playlist) (vs : VideoState) (nextIndex : Int) (now : Nat) :
    PlaylistStepResult :=
  let p2 := { p with currentIndex := nextIndex }
  let vs2 :=
    match getVideoAt p.videos nextIndex with
    | some v => { vs with audioTrack := audioSel v, subtitleTrack := subtitleSel v }
    | none => vs
  let vs3 := { vs2 with lastUpdate := now }
  { playlist := p2, videoState := vs3, emittedSync := true
    emittedPosition := some nextIndex, emittedPlaylistUpdate := false, threw := false }

/-- `socket.on('skip-to-next-video')` (lines 2439-2483): advances to
`(currentIndex + 1) % videos.length` using the JavaScript truncating
remainder, resets the time and fans out `sync`, `playlist-position` and
`playlist-update`; does nothing on an empty playlist.  When the computed
index is negative (possible only from a corrupted `currentIndex`),
`videos[nextIndex]` is `undefined` and reading `.selectedAudioTrack`
throws after `currentIndex` was already overwritten. -/
def skipToNextVideo (p : Playlist) (vs : VideoState) (now : Nat) :
    PlaylistStepResult :=
  if p.videos.length == 0 then
    { playlist := p, videoState := vs, emittedSync := false
      emittedPosition := none, emittedPlaylistUpdate := false, threw := false }
  else
    let nextIndex : Int := (p.currentIndex + 1).tmod (p.videos.length : Int)
    let p2 := { p with currentIndex := nextIndex }
    match getVideoAt p.videos nextIndex with
    | none =>
      { playlist := p2, videoState := vs, emittedSync := false
        emittedPosition := none, emittedPlaylistUpdate := false, threw := true }
    | some v =>
      let vs2 := { vs with audioTrack := audioSel v, subtitleTrack := subtitleSel v,
                           currentTime := 0, lastUpdate := now }
      { playlist := p2, videoState := vs2, emittedSync := true
        emittedPosition := some nextIndex, emittedPlaylistUpdate := true, threw := false }

/-- `socket.on('playlist-jump')` (lines 2522-2573): validates the index
against the live playlist length and rejects out-of-range values without
touching state; on success stores the index, picks the track selections
of the new entry, resets the time and fans out all three events. -/
def playlistJump (p : Playlist) (vs : VideoState) (index : Int) (now : Nat) :
    PlaylistStepResult :=
  if !validatePlaylistIndex index p then
    { playlist := p, videoState := vs, emittedSync := false
      emittedPosition := none, emittedPlaylistUpdate := false, threw := false }
  else
    let p2 := { p with currentIndex := index }
    let vs2 :=
      match getVideoAt p.videos index with
      | some v => { vs with audioTrack := audioSel v, subtitleTrack := subtitleSel v,
                            currentTime := 0, lastUpdate := now }
      | none => vs
    { playlist := p2, videoState := vs2, emittedSync := true
      emittedPosition := some index, emittedPlaylistUpdate := true, threw := false }

/-- Swap the elements at two in-range positions. -/
def listSwap {α : Type} (l : List α) (i j : Nat) : List α :=
  match l.get? i, l.get? j with
  | some a, some b => (l.set i b).set j a
  | _, _ => l

structure ReorderResult where
  playlist : Playlist
  emittedPlaylistUpdate : Bool
deriving DecidableEq, Repr

/-- `socket.on('playlist-reorder')` (lines 2655-2706): validates both
indices against the playlist length, swaps the two entries and moves
`mainVideoIndex` and `currentIndex` along when either pointed at a
swapped position. -/
def playlistReorder (p : Playlist) (fromIndex toIndex : Int) : ReorderResult :=
  if fromIndex < 0 || fromIndex ≥ (p.videos.length : Int) ||
      toIndex < 0 || toIndex ≥ (p.videos.length : Int) then
    { playlist := p, emittedPlaylistUpdate := false }
  else
    let videos2 := listSwap p.videos fromIndex.toNat toIndex.toNat
    let main2 :=
      if p.mainVideoIndex == fromIndex then toIndex
      else if p.mainVideoIndex == toIndex then fromIndex
      else p.mainVideoIndex
    let cur2 :=
      if p.currentIndex == fromIndex then toIndex
      else if p.currentIndex == toIndex then fromIndex
      else p.currentIndex
    { playlist := { p with videos := videos2, mainVideoIndex := main2, currentIndex := cur2 }
      emittedPlaylistUpdate := true }

/-! ## set-playlist (lines 2309-2414) and the probe interface -/

/-- One element of the `set-playlist` payload array. -/
structure SetPlaylistItem where
  filename : String
  isExternal : Bool
  selectedAudioTrack : Option Int
  selectedSubtitleTrack : Option Int
deriving DecidableEq, Repr

/-- `getTracksForFile` runs `path.basename` on the filename and hands the
resulting media path to ffprobe; the subprocess is the oracle `probe`.
Probe failure is part of the oracle (it then yields empty track sets). -/
def getTracksForFile (probe : String → Tracks) (filename : String) : Tracks :=
  probe (jsBasename filename)

/-- The per-item processing of the `set-playlist` loop (lines 2336-2359). -/
def processPlaylistItem (probe : String → Tracks) (item : SetPlaylistItem) : Video :=
  { filename := item.filename
    isExternal := item.isExternal
    tracks := if item.isExternal then ⟨[], []⟩ else getTracksForFile probe item.filename
    selectedAudioTrack := item.selectedAudioTrack
    selectedSubtitleTrack := item.selectedSubtitleTrack
    usesHEVC := strEndsWith item.filename ".mkv" }

structure SetPlaylistResult where
  playlist : Playlist
  videoState : VideoState
  /-- The filenames handed to the external ffprobe invocation, one per
  non-external item, in order: `path.basename(item.filename)`. -/
  probeCalls : List String
  emittedPlaylistUpdate : Bool
  emittedSync : Bool
  /-- The second `sync` scheduled 500 ms later when autoplay is off. -/
  delayedPauseSync : Bool
deriving DecidableEq, Repr

/-- `socket.on('set-playlist')`: probes tracks of every non-external item,
replaces the playlist, resets `currentIndex` to `0` and the clock to `0`,
takes the first entry's track selections when one exists, sets
`isPlaying` from the autoplay config and fans out `playlist-update` and
`sync` (plus a delayed pausing `sync` when autoplay is off). -/
def setPlaylist (probe : String → Tracks) (videoAutoplay : Bool)
    (_p : Playlist) (vs : VideoState) (items : List SetPlaylistItem)
    (mainVideoIndex startTime : Int) (now : Nat) : SetPlaylistResult :=
  let processed := items.map (processPlaylistItem probe)
  let p2 : Playlist :=
    { videos := processed
      mainVideoIndex := mainVideoIndex
      mainVideoStartTime := startTime
      currentIndex := 0
      preloadMainVideo := true }
  let vs2 :=
    match processed.head? with
    | some first => { vs with audioTrack := audioSel first, subtitleTrack := subtitleSel first }
    | none => vs
  let vs3 := { vs2 with currentTime := 0, lastUpdate := now, isPlaying := videoAutoplay }
  { playlist := p2
    videoState := vs3
    probeCalls := (items.filter (fun i => !i.isExternal)).map (fun i => jsBasename i.filename)
    emittedPlaylistUpdate := true
    emittedSync := true
    delayedPauseSync := !videoAutoplay }

/-! ## Legacy single-room connection handling (lines 2064-2098) -/

/-- `getCurrentTrackSelections()` (lines 1259-1268). -/
def getCurrentTrackSelections (p : Playlist) : Int × Int :=
  if p.videos.length > 0 && validatePlaylistIndex p.currentIndex p then
    match getVideoAt p.videos p.currentIndex with
    | some v => (audioSel v, subtitleSel v)
    | none => (0, -1)
  else (0, -1)

inductive SyncFanout where
  | everyone
  | joinerOnly
deriving DecidableEq, Repr

structure ConnectionResult where
  videoState : VideoState
  syncTo : SyncFanout
deriving DecidableEq, Repr

/-- The legacy (single-room) part of `io.on('connection')`: the shared
video state's track selections are realigned to the current playlist
entry, then `join_mode = reset` zeroes `currentTime`, refreshes
`lastUpdate` and broadcasts `sync` to everyone, while any other join mode
sends `sync` only to the joiner.  The `config` and `playlist-update`
events also sent to the joiner carry no playback state and are omitted. -/
def legacyConnection (joinMode : String) (p : Playlist) (vs : VideoState)
    (now : Nat) : ConnectionResult :=
  let sel := getCurrentTrackSelections p
  let vs1 := { vs with audioTrack := sel.1, subtitleTrack := sel.2 }
  if joinMode == "reset" then
    { videoState := { vs1 with currentTime := 0, lastUpdate := now }
      syncTo := .everyone }
  else
    { videoState := vs1, syncTo := .joinerOnly }

/-! ## The control event, legacy branch (lines 2184-2306) -/

/-- A `control` payload: either one of the four action variants or, with
no `action` field, a raw sync push carrying `isPlaying` and
`currentTime`. -/
inductive ControlMsg where
  | playpause (state : Bool)
  | skip (direction : String) (seconds : Option Int)
  | seek (time : Int)
  | selectTrack (trackType : String) (trackIndex : Int)
  | rawSync (isPlaying : Bool) (currentTime : Int)
deriving DecidableEq, Repr

structure LegacyControlResult where
  videoState : VideoState
  syncEmitted : Bool
  controlRejected : Bool
deriving DecidableEq, Repr

/-- The legacy branch of `socket.on('control')`: field validation first
(`currentTime` and seek times finite and non-negative, track index at
least `-1`), then the `client_controls_disabled` gate, then the
`client_sync_disabled` gate for raw sync pushes, then the action
dispatch.  `data.seconds || SKIP_SECONDS` makes an absent or zero skip
amount fall back to the configured value. -/
def legacyControl (skipSecondsCfg : Int)
    (clientControlsDisabled clientSyncDisabled isLegacyAdmin : Bool)
    (vs : VideoState) (msg : ControlMsg) (now : Nat) : LegacyControlResult :=
  let invalidTime :=
    match msg with
    | .rawSync _ t => decide (t < 0)
    | .seek t => decide (t < 0)
    | _ => false
  let invalidTrack :=
    match msg with
    | .selectTrack _ i => decide (i < -1)
    | _ => false
  if invalidTime || invalidTrack then
    { videoState := vs, syncEmitted := false, controlRejected := false }
  else if clientControlsDisabled && !isLegacyAdmin then
    { videoState := vs, syncEmitted := false, controlRejected := true }
  else
    match msg with
    | .playpause state =>
      { videoState := { vs with isPlaying := state, lastUpdate := now }
        syncEmitted := true, controlRejected := false }
    | .skip direction seconds =>
      let dir : Int := if direction == "forward" then 1 else -1
      let amount :=
        match seconds with
        | some s => if s == 0 then skipSecondsCfg else s
        | none => skipSecondsCfg
      { videoState := { vs with currentTime := vs.currentTime + dir * amount,
                                lastUpdate := now }
        syncEmitted := true, controlRejected := false }
    | .seek time =>
      { videoState := { vs with currentTime := time, lastUpdate := now }
        syncEmitted := true, controlRejected := false }
    | .selectTrack trackType trackIndex =>
      let vs2 :=
        if trackType == "audio" then { vs with audioTrack := trackIndex }
        else if trackType == "subtitle" then { vs with subtitleTrack := trackIndex }
        else vs
      { videoState := { vs2 with lastUpdate := now }
        syncEmitted := true, controlRejected := false }
    | .rawSync isPlaying currentTime =>
      if clientSyncDisabled then
        { videoState := vs, syncEmitted := false, controlRejected := false }
      else
        { videoState := { vs with isPlaying := isPlaying, currentTime := currentTime,
                                  lastUpdate := now }
          syncEmitted := true, controlRejected := false }

/-! ## Admin authorization middleware (lines 1787-1847) -/

/-- `ADMIN_ONLY_EVENTS` exactly as listed in the source. -/
def ADMIN_ONLY_EVENTS : List String :=
  ["set-playlist", "playlist-reorder", "playlist-jump", "track-change",
   "skip-to-next-video", "bsl-admin-register", "bsl-check-request",
   "bsl-get-status", "bsl-manual-match", "bsl-set-drift", "set-client-name",
   "get-client-list", "set-client-display-name", "delete-room", "create-room"]

/-- The context the middleware consults: the mode flags, the
socket-to-room map, the admin socket of each room (keyed by the stored
upper-case code), the set of verified admin sockets, and the legacy
module-level `adminSocketId` (which the gate never reads). -/
structure GateCtx where
  serverMode : Bool
  adminFingerprintLock : Bool
  socketRoomMap : List (String × String)
  roomAdmins : List (String × Option String)
  verifiedAdminSockets : List String
  legacyAdminSocketId : Option String
deriving DecidableEq, Repr

/-- `isSocketAdmin(socketId)` (lines 1806-1820): in server mode the
socket must be the admin connection of its room (room lookup is
case-insensitive); in legacy mode everyone passes when the fingerprint
lock is off, else membership in `verifiedAdminSockets` decides. -/
def isSocketAdmin (ctx : GateCtx) (socketId : String) : Bool :=
  if ctx.serverMode then
    match ctx.socketRoomMap.lookup socketId with
    | none => false
    | some roomCode =>
      match ctx.roomAdmins.lookup (upperStr roomCode) with
      | none => false
      | some adminId => adminId == some socketId
  else
    if !ctx.adminFingerprintLock then true
    else ctx.verifiedAdminSockets.contains socketId

inductive GateResult where
  /-- The middleware calls `next()`; the handler dispatches. -/
  | pass
  /-- The event is dropped before dispatch and `admin-error` naming the
  event is emitted to the sender. -/
  | blocked (adminErrorEvent : String)
deriving DecidableEq, Repr

/-- The authorization middleware (lines 1823-1847): events outside the
whitelist pass, `create-room` and `bsl-admin-register` pass
unconditionally, every other whitelisted event is blocked with an
`admin-error` unless `isSocketAdmin` holds. -/
def adminGate (ctx : GateCtx) (eventName socketId : String) : GateResult :=
  if ADMIN_ONLY_EVENTS.contains eventName then
    if eventName == "create-room" || eventName == "bsl-admin-register" then .pass
    else if !isSocketAdmin ctx socketId then .blocked eventName
    else .pass
  else .pass

/-! ## bsl-admin-register (lines 2718-2757) -/

structure AdminRegState where
  /-- The module-level `registeredAdminFingerprint`. -/
  registeredAdminFingerprint : Option String
  /-- The fingerprint persisted through `setAdminFingerprint`. -/
  persistedAdminFingerprint : Option String
  verifiedAdminSockets : List String
  adminSocketId : Option String
deriving DecidableEq, Repr

structure AdminRegResult where
  state : AdminRegState
  /-- The `admin-auth-result` reply: success flag and optional reason. -/
  success : Bool
  reason : Option String
  /-- `setTimeout(() => socket.disconnect(true), 1000)` when scheduled. -/
  disconnectAfterMs : Option Nat
deriving DecidableEq, Repr

/-- The shared tail of the handler (lines 2750-2756): record the socket
as a verified admin, take the admin seat, reply success. -/
def finishAdminRegister (st : AdminRegState) (socketId : String) : AdminRegResult :=
  let verified :=
    if st.verifiedAdminSockets.contains socketId then st.verifiedAdminSockets
    else socketId :: st.verifiedAdminSockets
  { state := { st with verifiedAdminSockets := verified, adminSocketId := some socketId }
    success := true, reason := none, disconnectAfterMs := none }

/-- `socket.on('bsl-admin-register')`: with the fingerprint lock on, a
missing (or empty, hence falsy) fingerprint is rejected; the first
fingerprint is bound and persisted; a differing fingerprint is rejected
with a reason and the socket is scheduled for disconnection after
1000 ms, leaving the state untouched; a matching fingerprint falls
through to verification. -/
def bslAdminRegister (adminFingerprintLock : Bool) (st : AdminRegState)
    (socketId : String) (fingerprint : Option String) : AdminRegResult :=
  if adminFingerprintLock then
    match fingerprint with
    | none =>
      { state := st, success := false
        reason := some "No fingerprint provided", disconnectAfterMs := none }
    | some fp =>
      if fp == "" then
        { state := st, success := false
          reason := some "No fingerprint provided", disconnectAfterMs := none }
      else
        match st.registeredAdminFingerprint with
        | none =>
          finishAdminRegister
            { st with registeredAdminFingerprint := some fp
                      persistedAdminFingerprint := some fp } socketId
        | some registered =>
          if registered != fp then
            { state := st, success := false
              reason := some "Unauthorized device. This admin panel is locked to a different machine."
              disconnectAfterMs := some 1000 }
          else finishAdminRegister st socketId
  else finishAdminRegister st socketId

/-! ## bsl-set-drift (lines 3008-3089) -/

/-- `validateDriftSeconds` (lines 1781-1783): in `[-60, 60]`. -/
def validateDriftSeconds (drift : Int) : Bool :=
  decide (-60 ≤ drift) && decide (drift ≤ 60)

structure DriftResult where
  /-- The per-fingerprint drift tables after the handler. -/
  driftValues : List (String × List (Int × Int))
  /-- The `bsl-drift-update` pushes: socket id and carried drift table. -/
  pushes : List (String × List (Int × Int))
deriving DecidableEq, Repr

/-- `socket.on('bsl-set-drift')`, after room and admin resolution:
rejects an empty (falsy) fingerprint, a negative playlist index and a
drift outside `[-60, 60]` without touching state; otherwise clamps (a
no-op after the validation), stores the value under the fingerprint and
index, and pushes the fingerprint's drift table to every connection
whose fingerprint matches.  `clients` is the room's member map as a list
of socket-id/fingerprint pairs. -/
def bslSetDrift (driftMap : List (String × List (Int × Int)))
    (clients : List (String × String)) (clientFingerprint : String)
    (playlistIndex driftSeconds : Int) : DriftResult :=
  if clientFingerprint == "" then { driftValues := driftMap, pushes := [] }
  else if playlistIndex < 0 then { driftValues := driftMap, pushes := [] }
  else if !validateDriftSeconds driftSeconds then
    { driftValues := driftMap, pushes := [] }
  else
    let clampedDrift := max (-60) (min 60 driftSeconds)
    let clientDrifts := (driftMap.lookup clientFingerprint).getD []
    let clientDrifts2 := updateAssoc clientDrifts playlistIndex clampedDrift
    { driftValues := updateAssoc driftMap clientFingerprint clientDrifts2
      pushes := (clients.filter (fun c => c.2 == clientFingerprint)).map
        (fun c => (c.1, clientDrifts2)) }

/-! ## The BSL-S² matcher and bsl-folder-selected (lines 2825-2954) -/

/-- A file descriptor reported by a client: `{name, size?, type?}`. -/
structure ClientFile where
  name : String
  size : Option Int
  type : Option String
deriving DecidableEq, Repr

/-- The extension-to-MIME table of the advanced matcher (lines
2898-2910). -/
def mimeMap : List (String × String) :=
  [(".mp4", "video/mp4"), (".mkv", "video/x-matroska"), (".webm", "video/webm"),
   (".avi", "video/x-msvideo"), (".mov", "video/quicktime"), (".wmv", "video/x-ms-wmv"),
   (".mp3", "audio/mpeg"), (".png", "image/png"), (".jpg", "image/jpeg"),
   (".jpeg", "image/jpeg"), (".webp", "image/webp")]

/-- `name.substring(name.lastIndexOf('.')).toLowerCase()`. -/
def fileExt (name : String) : String := lowerStr (String.mk (fromLastDot name.data))

/-- `clientFile.type && clientFile.type.length > 0`. -/
def typeNonempty : Option String → Bool
  | some t => t != ""
  | none => false

/-- The advanced four-criteria score (lines 2862-2915).  `diskSize`
models `fs.statSync` on `path.join(ROOT_DIR, 'media', filename)`; `none`
models a throwing stat, which skips the size criterion.  The MIME
criterion compares against `mimeMap[serverExt] || ''` and also passes
when the reported type starts with `expectedMime.split('/')[0]` -- for an
extension outside the table that prefix is the empty string, which every
string starts with. -/
def advancedMatchScore (diskSize : String → Option Int) (clientFile : ClientFile)
    (serverFilename : String) : Nat :=
  let s1 := if lowerStr clientFile.name == lowerStr serverFilename then 1 else 0
  let serverExt := fileExt serverFilename
  let s2 := if fileExt clientFile.name == serverExt then 1 else 0
  let s3 :=
    match clientFile.size, diskSize serverFilename with
    | some clientSize, some serverSize =>
      if (clientSize - serverSize).natAbs ≤ 1572864 then 1 else 0
    | _, _ => 0
  let s4 :=
    if typeNonempty clientFile.type then
      let t := clientFile.type.getD ""
      let expectedMime := (mimeMap.lookup serverExt).getD ""
      if t == expectedMime || strStartsWith t (mimeFamily expectedMime) then 1 else 0
    else 0
  s1 + s2 + s3 + s4

/-- The body of the inner `forEach` over playlist entries (lines
2854-2928) for one client file against the entry at `idx`: a persistent
match short-circuits, else the advanced score meets the threshold, else
(advanced matching off) exact case-insensitive name equality. -/
def pairUpdate (advanced : Bool) (threshold : Nat) (diskSize : String → Option Int)
    (clientMatches : List (String × String)) (clientFile : ClientFile)
    (acc : List (Nat × String)) (idx : Nat) (v : Video) : List (Nat × String) :=
  if clientMatches.lookup (lowerStr clientFile.name) == some (lowerStr v.filename) then
    updateAssoc acc idx clientFile.name
  else if advanced then
    if advancedMatchScore diskSize clientFile v.filename ≥ threshold then
      updateAssoc acc idx clientFile.name
    else acc
  else
    if lowerStr clientFile.name == lowerStr v.filename then
      updateAssoc acc idx clientFile.name
    else acc

/-- The nested matching loops building `matchedVideos`: outer over the
reported files, inner over the playlist entries, skipped entirely for an
empty playlist. -/
def computeMatchedVideos (advanced : Bool) (threshold : Nat)
    (diskSize : String → Option Int) (clientMatches : List (String × String))
    (videos : List Video) (files : List ClientFile) : List (Nat × String) :=
  if videos.length > 0 then
    files.foldl
      (fun acc f =>
        videos.enum.foldl
          (fun acc2 iv => pairUpdate advanced threshold diskSize clientMatches f acc2 iv.1 iv.2)
          acc)
      []
  else []

/-- The per-member BSL record stored in `clientBslStatus`. -/
structure BslClientStatus where
  clientId : String
  clientName : String
  folderSelected : Bool
  files : List ClientFile
  matchedVideos : List (Nat × String)
deriving DecidableEq, Repr

/-- The `bsl-match-result` reply. -/
structure BslMatchResult where
  matchedVideos : List (Nat × String)
  totalMatched : Nat
  totalPlaylist : Nat
deriving DecidableEq, Repr

structure BslFolderPayload where
  clientId : Option String
  clientName : Option String
  files : List ClientFile
deriving DecidableEq, Repr

/-- JavaScript `a || b` for optional strings: empty strings are falsy. -/
def orElseStr (a : Option String) (b : String) : String :=
  match a with
  | some s => if s == "" then b else s
  | none => b

/-- `socket.on('bsl-folder-selected')`, after room resolution: computes
`matchedVideos` from the reported files, the playlist and the client's
persistent matches, stores the member's BSL record under the socket id,
and replies `bsl-match-result` with the matches and the counts.
`persistentMatches` is the `bslMatches` store keyed by persistent client
id; the handler does not modify it. -/
def bslFolderSelected (advanced : Bool) (threshold : Nat)
    (diskSize : String → Option Int)
    (persistentMatches : List (String × List (String × String)))
    (playlist : Playlist) (status : List (String × BslClientStatus))
    (socketId : String) (payload : BslFolderPayload) :
    List (String × BslClientStatus) × BslMatchResult :=
  let clientId := orElseStr payload.clientId socketId
  let clientMatches := (persistentMatches.lookup clientId).getD []
  let matched := computeMatchedVideos advanced threshold diskSize clientMatches
    playlist.videos payload.files
  let entry : BslClientStatus :=
    { clientId := clientId
      clientName := orElseStr payload.clientName (sliceLast clientId 6)
      folderSelected := true
      files := payload.files
      matchedVideos := matched }
  (updateAssoc status socketId entry,
   { matchedVideos := matched
     totalMatched := matched.length
     totalPlaylist := playlist.videos.length })

/-! ## Room registry and delete-room (lines 913-991 and 1961-1991) -/

structure RoomRec where
  code : String
  name : String
  adminFingerprint : Option String
  /-- The member socket ids (the keys of the `clients` map). -/
  clients : List String
deriving DecidableEq, Repr

/-- `getRoom(code)` (lines 944-946): the registry lookup upper-cases the
requested code. -/
def getRoomR (rooms : List (String × RoomRec)) (code : String) : Option RoomRec :=
  rooms.lookup (upperStr code)

/-- `deleteRoom(code)` (lines 948-961): the registry deletion uses the
raw code as the key. -/
def deleteRoomR (rooms : List (String × RoomRec)) (code : String) :
    List (String × RoomRec) × Bool :=
  match rooms.lookup code with
  | some _ => (removeAssoc rooms code, true)
  | none => (rooms, false)

/-- `Room.isAdmin(fingerprint)` (lines 882-899): the in-memory
fingerprint first, then the fingerprint persisted for the room's code;
a disk hit also restores the in-memory copy.  Returns the verdict and
the possibly updated room. -/
def roomIsAdmin (persistedFp : Option String) (room : RoomRec) (fingerprint : String) :
    Bool × RoomRec :=
  if room.adminFingerprint == some fingerprint then (true, room)
  else
    match persistedFp with
    | some p =>
      if p != "" && p == fingerprint then (true, { room with adminFingerprint := some p })
      else (false, room)
    | none => (false, room)

/-- The socket.io side state the delete-room handler touches: the room
registry, the channel memberships created by `socket.join` (socket id
paired with the exact channel string joined), and `socketRoomMap`. -/
structure DeleteRoomCtx where
  rooms : List (String × RoomRec)
  memberships : List (String × String)
  socketRoomMap : List (String × String)
deriving DecidableEq, Repr

structure DeleteRoomOutcome where
  ctx : DeleteRoomCtx
  callbackSuccess : Bool
  callbackError : Option String
  /-- The channel the `room-deleted` event was emitted on, when any. -/
  emitChannel : Option String
  /-- The sockets that were members of that exact channel at emit time
  and hence receive `room-deleted`. -/
  receivers : List String
deriving DecidableEq, Repr

/-- The sockets joined to a channel. -/
def channelMembers (memberships : List (String × String)) (channel : String) :
    List String :=
  (memberships.filter (fun m => m.2 == channel)).map (fun m => m.1)

/-- `socket.on('delete-room')` (lines 1961-1991): looks the room up
case-insensitively, checks the admin fingerprint, emits `room-deleted`
on `io.to(roomCode)` with the raw code, makes each member socket leave
the raw-code channel and drops it from `socketRoomMap`, then calls
`deleteRoom(roomCode)` with the raw code. -/
def deleteRoomHandler (persistedFp : String → Option String) (ctx : DeleteRoomCtx)
    (roomCode : String) (fingerprint : String) : DeleteRoomOutcome :=
  match getRoomR ctx.rooms roomCode with
  | none =>
    { ctx := ctx, callbackSuccess := false, callbackError := some "Room not found"
      emitChannel := none, receivers := [] }
  | some room =>
    let checked := roomIsAdmin (persistedFp room.code) room fingerprint
    let rooms1 := updateAssoc ctx.rooms (upperStr roomCode) checked.2
    if !checked.1 then
      { ctx := { ctx with rooms := rooms1 }, callbackSuccess := false
        callbackError := some "Not authorized", emitChannel := none, receivers := [] }
    else
      let receivers := channelMembers ctx.memberships roomCode
      let memberships2 := ctx.memberships.filter
        (fun m => !(checked.2.clients.contains m.1 && m.2 == roomCode))
      let socketRoomMap2 := ctx.socketRoomMap.filter
        (fun m => !checked.2.clients.contains m.1)
      let rooms2 := (deleteRoomR rooms1 roomCode).1
      { ctx := { rooms := rooms2, memberships := memberships2, socketRoomMap := socketRoomMap2 }
        callbackSuccess := true, callbackError := none
        emitChannel := some roomCode, receivers := receivers }

/-! ## Derived predicates and concrete fixtures used by the theorems -/

/-- The index-validity invariant of the specification: a valid current
index, or `-1` together with an empty playlist. -/
def indexInvariant (p : Playlist) : Prop :=
  (0 ≤ p.currentIndex ∧ p.currentIndex < (p.videos.length : Int)) ∨
  (p.currentIndex = -1 ∧ p.videos = [])

instance : DecidablePred indexInvariant := fun p => by
  unfold indexInvariant; infer_instance

/-- The four matcher criteria read off the specification text, for
comparison with `advancedMatchScore`: the specification awards the MIME
point only when the reported type equals the extension's canonical MIME
or shares that canonical MIME's family, so an extension with no entry in
the table awards nothing. -/
def specMatchScore (diskSize : String → Option Int) (clientFile : ClientFile)
    (serverFilename : String) : Nat :=
  let s1 := if lowerStr clientFile.name == lowerStr serverFilename then 1 else 0
  let serverExt := fileExt serverFilename
  let s2 := if fileExt clientFile.name == serverExt then 1 else 0
  let s3 :=
    match clientFile.size, diskSize serverFilename with
    | some clientSize, some serverSize =>
      if (clientSize - serverSize).natAbs ≤ 1572864 then 1 else 0
    | _, _ => 0
  let s4 :=
    if typeNonempty clientFile.type then
      let t := clientFile.type.getD ""
      match mimeMap.lookup serverExt with
      | some canonical =>
        if t == canonical || mimeFamily t == mimeFamily canonical then 1 else 0
      | none => 0
    else 0
  s1 + s2 + s3 + s4

/-- A probe oracle for concrete evaluations: every probe yields empty
track sets. -/
def emptyProbe : String → Tracks := fun _ => ⟨[], []⟩

/-- A filesystem oracle with no statable files. -/
def noDisk : String → Option Int := fun _ => none

/-- A playlist entry built the way `set-playlist` stores one. -/
def mkVideo (filename : String) : Video :=
  { filename := filename, isExternal := false, tracks := ⟨[], []⟩
    selectedAudioTrack := none, selectedSubtitleTrack := none
    usesHEVC := strEndsWith filename ".mkv" }

/-- The thirteen admin-gated command names the specification enumerates
(the whitelist minus the two exempt establishing commands). -/
def claimGatedEvents : List String :=
  ["set-playlist", "playlist-reorder", "playlist-jump", "track-change",
   "skip-to-next-video", "bsl-check-request", "bsl-get-status", "bsl-manual-match",
   "bsl-set-drift", "set-client-name", "get-client-list", "set-client-display-name",
   "delete-room"]

/-- A legacy-mode state reached by replacing the playlist with one
external entry (autoplay off). -/
def legacyTraceSet : SetPlaylistResult :=
  setPlaylist emptyProbe false initialPlaylist (initialVideoState 0)
    [⟨"a.mp4", true, none, none⟩] 0 0 1

/-- The state after the admin then issues a selectTrack control picking
audio track 2; the playlist entry keeps its stored selection. -/
def legacyTraceState2 : VideoState :=
  (legacyControl 5 false false true legacyTraceSet.videoState
    (.selectTrack "audio" 2) 2).videoState

/-! ## Helper lemmas -/

theorem beq_false_of_ne {κ : Type} [BEq κ] [LawfulBEq κ] {a b : κ} (h : a ≠ b) :
    (a == b) = false := beq_eq_false_iff_ne.mpr h

theorem lookup_updateAssoc {κ α : Type} [BEq κ] [LawfulBEq κ]
    (l : List (κ × α)) (k2 : κ) (v : α) (k : κ) :
    (updateAssoc l k2 v).lookup k = if k2 == k then some v else l.lookup k := by
  induction l with
  | nil =>
    by_cases h : k2 = k
    · subst h; simp [updateAssoc, List.lookup]
    · simp [updateAssoc, List.lookup, beq_false_of_ne h, beq_false_of_ne (Ne.symm h)]
  | cons hd tl ih =>
    obtain ⟨k3, v3⟩ := hd
    by_cases h32 : k3 = k2
    · subst h32
      by_cases hk : k3 = k
      · subst hk; simp [updateAssoc, List.lookup]
      · simp [updateAssoc, List.lookup, beq_false_of_ne hk, beq_false_of_ne (Ne.symm hk)]
    · by_cases hk : k3 = k
      · subst hk
        simp [updateAssoc, List.lookup, beq_false_of_ne h32,
              beq_false_of_ne (show k2 ≠ k3 from fun e => h32 e.symm)]
      · simp [updateAssoc, List.lookup, beq_false_of_ne h32,
              beq_false_of_ne (Ne.symm hk), ih]

theorem updateAssoc_lookup_self {κ α : Type} [BEq κ] [LawfulBEq κ]
    (l : List (κ × α)) (k : κ) (v : α) :
    (updateAssoc l k v).lookup k = some v := by
  rw [lookup_updateAssoc]; simp

theorem updateAssoc_idem {κ α : Type} [BEq κ] [LawfulBEq κ]
    (l : List (κ × α)) (k : κ) (v : α) :
    updateAssoc (updateAssoc l k v) k v = updateAssoc l k v := by
  induction l with
  | nil => simp [updateAssoc]
  | cons hd tl ih =>
    obtain ⟨k2, v2⟩ := hd
    by_cases h : k2 = k
    · subst h; simp [updateAssoc]
    · simp [updateAssoc, beq_false_of_ne h, ih]

theorem updateAssoc_of_lookup_eq {κ α : Type} [BEq κ] [LawfulBEq κ]
    (l : List (κ × α)) (k : κ) (v : α) (h : l.lookup k = some v) :
    updateAssoc l k v = l := by
  induction l with
  | nil => simp [List.lookup] at h
  | cons hd tl ih =>
    obtain ⟨k2, v2⟩ := hd
    by_cases hk : k2 = k
    · subst hk
      simp [List.lookup] at h
      simp [updateAssoc, h]
    · simp [List.lookup, beq_false_of_ne (Ne.symm hk)] at h
      simp [updateAssoc, beq_false_of_ne hk, ih h]

theorem pairUpdate_no_persistent (threshold : Nat) (ds : String → Option Int)
    (f : ClientFile) (acc : List (Nat × String)) (idx : Nat) (v : Video) :
    pairUpdate true threshold ds [] f acc idx v =
      if threshold ≤ advancedMatchScore ds f v.filename then updateAssoc acc idx f.name
      else acc := by
  simp [pairUpdate, List.lookup, ge_iff_le]

theorem inner_fold_lookup (threshold : Nat) (ds : String → Option Int) (f : ClientFile)
    (L : List (Nat × Video)) (acc : List (Nat × String)) (i : Nat) :
    ((L.foldl (fun acc2 iv => pairUpdate true threshold ds [] f acc2 iv.1 iv.2) acc).lookup
        i).isSome =
      (L.any (fun iv => iv.1 == i && decide (threshold ≤ advancedMatchScore ds f iv.2.filename))
        || (acc.lookup i).isSome) := by
  induction L generalizing acc with
  | nil => simp
  | cons hd tl ih =>
    obtain ⟨j, v⟩ := hd
    simp only [List.foldl_cons, List.any_cons, ih]
    rw [pairUpdate_no_persistent]
    by_cases hs : threshold ≤ advancedMatchScore ds f v.filename
    · simp only [if_pos hs, decide_eq_true hs, Bool.and_true]
      rw [lookup_updateAssoc]
      by_cases hj : j = i
      · subst hj; simp
      · simp [beq_false_of_ne hj]
    · simp only [if_neg hs, decide_eq_false hs, Bool.and_false, Bool.false_or]

theorem outer_fold_lookup (threshold : Nat) (ds : String → Option Int)
    (videos : List Video) (files : List ClientFile)
    (acc : List (Nat × String)) (i : Nat) :
    ((files.foldl
        (fun acc f =>
          videos.enum.foldl
            (fun acc2 iv => pairUpdate true threshold ds [] f acc2 iv.1 iv.2) acc)
        acc).lookup i).isSome =
      (files.any (fun f =>
          videos.enum.any
            (fun iv => iv.1 == i && decide (threshold ≤ advancedMatchScore ds f iv.2.filename)))
        || (acc.lookup i).isSome) := by
  induction files generalizing acc with
  | nil => simp
  | cons f fs ih =>
    simp only [List.foldl_cons, List.any_cons, ih, inner_fold_lookup]
    cases h1 : videos.enum.any
        (fun iv => iv.1 == i && decide (threshold ≤ advancedMatchScore ds f iv.2.filename)) <;>
      simp [h1, Bool.or_assoc]

/-! ## Theorems settling the claims -/

/-- C2 counterexample: the specification example sends
`driftSeconds = 75` and expects the stored value `60` to be pushed to the
matching client, but the handler validates the drift before clamping and
rejects `75` outright: nothing is stored and nothing is pushed. -/
theorem bsl_set_drift_seventyfive_rejected :
    bslSetDrift [] [("s1", "fpV")] "fpV" 0 75 = ⟨[], []⟩ ∧
    (bslSetDrift [] [("s1", "fpV")] "fpV" 0 75).driftValues.lookup "fpV" = none ∧
    (bslSetDrift [] [("s1", "fpV")] "fpV" 0 75).pushes ≠ [("s1", [(0, 60)])] := by
  decide

/-- C2 (amended): a bsl-set-drift from the admin with a non-empty string
fingerprint, a non-negative integer playlist index and driftSeconds
already inside `[-60, 60]` stores the value (the clamp is a no-op after
the validation) under that fingerprint and playlist index, and pushes the
drift table containing it to every connection whose fingerprint matches;
driftSeconds outside `[-60, 60]` is rejected by validation with no state
change, so `75` never yields a stored `60`. -/
theorem bsl_set_drift_in_range_stores_and_pushes
    (driftMap : List (String × List (Int × Int))) (clients : List (String × String))
    (fp : String) (idx d : Int)
    (hfp : fp ≠ "") (hidx : 0 ≤ idx) (hlo : -60 ≤ d) (hhi : d ≤ 60) :
    (bslSetDrift driftMap clients fp idx d).driftValues.lookup fp =
      some (updateAssoc ((driftMap.lookup fp).getD []) idx d) ∧
    (updateAssoc ((driftMap.lookup fp).getD []) idx d).lookup idx = some d ∧
    (bslSetDrift driftMap clients fp idx d).pushes =
      (clients.filter (fun c => c.2 == fp)).map
        (fun c => (c.1, updateAssoc ((driftMap.lookup fp).getD []) idx d)) := by
  have hbeq : (fp == "") = false := beq_false_of_ne hfp
  have hval : validateDriftSeconds d = true := by
    simp [validateDriftSeconds, hlo, hhi]
  have hclamp : max (-60) (min 60 d) = d := by
    rw [min_eq_right hhi, max_eq_right hlo]
  refine ⟨?_, updateAssoc_lookup_self _ _ _, ?_⟩ <;>
    simp only [bslSetDrift, hbeq, Bool.false_eq_true, if_false,
      if_neg (not_lt.mpr hidx), hval, Bool.not_true, hclamp]
  exact updateAssoc_lookup_self _ _ _

/-- C2 witness: the amended theorem applied at a stored drift of 30. -/
theorem bsl_set_drift_in_range_stores_and_pushes_witness :
    (bslSetDrift [] [("s1", "fpV")] "fpV" 0 30).driftValues.lookup "fpV" =
      some (updateAssoc ((([] : List (String × List (Int × Int))).lookup "fpV").getD []) 0 30) ∧
    (updateAssoc ((([] : List (String × List (Int × Int))).lookup "fpV").getD []) 0 30).lookup
      (0 : Int) = some 30 ∧
    (bslSetDrift [] [("s1", "fpV")] "fpV" 0 30).pushes =
      (([("s1", "fpV")] : List (String × String)).filter (fun c => c.2 == "fpV")).map
        (fun c => (c.1, updateAssoc ((([] : List (String × List (Int × Int))).lookup
          "fpV").getD []) 0 30)) :=
  bsl_set_drift_in_range_stores_and_pushes [] [("s1", "fpV")] "fpV" 0 30
    (by decide) (by decide) (by decide) (by decide)

/-- C3: the claim fails on the code.  The set-playlist probe loop hands
every non-external item filename to getTracksForFile, which only applies
`path.basename` before invoking ffprobe; validateFilename is never
consulted on this path, so a filename the validator rejects (here for
the shell metacharacter `;`) reaches the external probe unchanged. -/
theorem set_playlist_probe_bypasses_validator :
    (setPlaylist emptyProbe false initialPlaylist (initialVideoState 0)
      [⟨"movie;rm.mkv", false, none, none⟩] 0 0 0).probeCalls = ["movie;rm.mkv"] ∧
    validateFilename "movie;rm.mkv" =
      .invalid "Filename contains disallowed shell metacharacters" := by
  decide

theorem gated_event_facts (e : String) (h : e ∈ claimGatedEvents) :
    e ∈ ADMIN_ONLY_EVENTS ∧ e ≠ "create-room" ∧ e ≠ "bsl-admin-register" := by
  fin_cases h <;> refine ⟨by decide, by decide, by decide⟩

/-- C4 counterexample: in legacy single-room mode with the fingerprint
lock off, a connection that is not the admin seat (the module-level
adminSocketId names sA while the sender is sB) passes the gate for the
admin-gated set-playlist command instead of being blocked. -/
theorem admin_gate_legacy_open_without_lock :
    adminGate ⟨false, false, [], [], [], some "sA"⟩ "set-playlist" "sB" = .pass ∧
    (⟨false, false, [], [], [], some "sA"⟩ : GateCtx).legacyAdminSocketId ≠ some "sB" := by
  decide

/-- C4 (amended): for each of the thirteen gated command names, in server
mode the middleware blocks a sender that is not the admin connection of
its room before dispatch and emits admin-error naming the command, and
create-room and bsl-admin-register are exempt; in legacy single-room
mode the gate instead checks membership in the verified-admin set when
the fingerprint lock is on, and passes everyone when it is off. -/
theorem admin_gate_amended (ctx : GateCtx) (e s : String) (h : e ∈ claimGatedEvents) :
    (ctx.serverMode = true →
      ∀ rc adm, ctx.socketRoomMap.lookup s = some rc →
        ctx.roomAdmins.lookup (upperStr rc) = some adm → adm ≠ some s →
        adminGate ctx e s = .blocked e) ∧
    (adminGate ctx "create-room" s = .pass ∧
      adminGate ctx "bsl-admin-register" s = .pass) ∧
    (ctx.serverMode = false → ctx.adminFingerprintLock = true →
      s ∉ ctx.verifiedAdminSockets → adminGate ctx e s = .blocked e) ∧
    (ctx.serverMode = false → ctx.adminFingerprintLock = false →
      adminGate ctx e s = .pass) := by
  obtain ⟨hc, hcr, hbr⟩ := gated_event_facts e h
  refine ⟨?_, ⟨rfl, rfl⟩, ?_, ?_⟩
  · intro hsm rc adm h1 h2 h3
    have hadmin : isSocketAdmin ctx s = false := by
      simp [isSocketAdmin, hsm, h1, h2, beq_false_of_ne h3]
    simp [adminGate, hc, hcr, hbr, hadmin]
  · intro hsm hlock hver
    have hadmin : isSocketAdmin ctx s = false := by
      simp [isSocketAdmin, hsm, hlock, hver]
    simp [adminGate, hc, hcr, hbr, hadmin]
  · intro hsm hlock
    have hadmin : isSocketAdmin ctx s = true := by
      simp [isSocketAdmin, hsm, hlock]
    simp [adminGate, hc, hcr, hbr, hadmin]

/-- C4 witness: the amended theorem applied to a server-mode context in
which sB sits in room AB23CD whose admin connection is sA. -/
theorem admin_gate_amended_witness :
    adminGate ⟨true, false, [("sB", "AB23CD")], [("AB23CD", some "sA")], [], none⟩
      "set-playlist" "sB" = .blocked "set-playlist" :=
  (admin_gate_amended ⟨true, false, [("sB", "AB23CD")], [("AB23CD", some "sA")], [], none⟩
      "set-playlist" "sB" (by decide)).1 rfl "AB23CD" (some "sA") (by decide) (by decide)
    (by decide)

/-- C5 counterexample: a set-playlist whose playlist array is empty
resets currentIndex to 0 while leaving videos empty, so afterwards
currentIndex is not -1 despite the playlist being empty: the claimed
iff is violated by the very operation the claim cites as preserving it. -/
theorem set_playlist_empty_breaks_index_iff :
    (setPlaylist emptyProbe false initialPlaylist (initialVideoState 0)
        [] 0 0 0).playlist.videos = [] ∧
    (setPlaylist emptyProbe false initialPlaylist (initialVideoState 0)
        [] 0 0 0).playlist.currentIndex = 0 ∧
    ¬ ((setPlaylist emptyProbe false initialPlaylist (initialVideoState 0)
          [] 0 0 0).playlist.currentIndex = -1 ↔
       (setPlaylist emptyProbe false initialPlaylist (initialVideoState 0)
          [] 0 0 0).playlist.videos = []) := by
  decide

/-- C5 (amended): currentIndex is -1 with an empty playlist in a newly
created room, and a set-playlist carrying a non-empty playlist array
starts the playlist with currentIndex 0, a valid index; a set-playlist
carrying an empty array however also resets currentIndex to 0, leaving
an empty playlist whose currentIndex is not -1, so the iff only survives
non-empty replacements. -/
theorem index_sentinel_amended (probe : String → Tracks) (autoplay : Bool)
    (p : Playlist) (vs : VideoState) (items : List SetPlaylistItem)
    (mvi st : Int) (now : Nat) (h : items ≠ []) :
    (initialPlaylist.currentIndex = -1 ∧ initialPlaylist.videos = []) ∧
    (setPlaylist probe autoplay p vs items mvi st now).playlist.currentIndex = 0 ∧
    (setPlaylist probe autoplay p vs items mvi st now).playlist.videos.length =
      items.length ∧
    indexInvariant (setPlaylist probe autoplay p vs items mvi st now).playlist := by
  have hlen : 0 < items.length := List.length_pos.mpr h
  refine ⟨⟨rfl, rfl⟩, rfl, by simp [setPlaylist], Or.inl ⟨by simp [setPlaylist], ?_⟩⟩
  show (0 : Int) < ((items.map (processPlaylistItem probe)).length : Int)
  simpa using hlen

/-- C5 witness: the amended theorem applied to a one-entry playlist. -/
theorem index_sentinel_amended_witness :
    (initialPlaylist.currentIndex = -1 ∧ initialPlaylist.videos = []) ∧
    (setPlaylist emptyProbe false initialPlaylist (initialVideoState 0)
        [⟨"a.mp4", true, none, none⟩] 0 0 0).playlist.currentIndex = 0 ∧
    (setPlaylist emptyProbe false initialPlaylist (initialVideoState 0)
        [⟨"a.mp4", true, none, none⟩] 0 0 0).playlist.videos.length =
      [(⟨"a.mp4", true, none, none⟩ : SetPlaylistItem)].length ∧
    indexInvariant (setPlaylist emptyProbe false initialPlaylist (initialVideoState 0)
        [⟨"a.mp4", true, none, none⟩] 0 0 0).playlist :=
  index_sentinel_amended emptyProbe false initialPlaylist (initialVideoState 0)
    [⟨"a.mp4", true, none, none⟩] 0 0 0 (by decide)

/-- C1: the claim fails on the code.  The playlist-next handler stores
the received index without any bound check: starting from a valid
one-entry playlist state, a playlist-next carrying index 5 leaves
currentIndex = 5 on a playlist of length 1, violating the index-validity
invariant the claim states for accepted playlist-next messages.  The
sibling handlers do validate: from the same state, a playlist-jump
carrying index 5 is rejected leaving the playlist untouched, and a
skip-to-next-video lands on the valid index 0. -/
theorem playlist_next_unchecked_index_breaks_invariant :
    indexInvariant { initialPlaylist with videos := [mkVideo "a.mp4"], currentIndex := 0 } ∧
    (playlistNext { initialPlaylist with videos := [mkVideo "a.mp4"], currentIndex := 0 }
        (initialVideoState 0) 5 1).playlist.currentIndex = 5 ∧
    (playlistNext { initialPlaylist with videos := [mkVideo "a.mp4"], currentIndex := 0 }
        (initialVideoState 0) 5 1).playlist.videos.length = 1 ∧
    ¬ indexInvariant (playlistNext
        { initialPlaylist with videos := [mkVideo "a.mp4"], currentIndex := 0 }
        (initialVideoState 0) 5 1).playlist ∧
    (playlistJump { initialPlaylist with videos := [mkVideo "a.mp4"], currentIndex := 0 }
        (initialVideoState 0) 5 1).playlist =
      { initialPlaylist with videos := [mkVideo "a.mp4"], currentIndex := 0 } ∧
    (skipToNextVideo { initialPlaylist with videos := [mkVideo "a.mp4"], currentIndex := 0 }
        (initialVideoState 0) 1).playlist.currentIndex = 0 ∧
    indexInvariant (skipToNextVideo
        { initialPlaylist with videos := [mkVideo "a.mp4"], currentIndex := 0 }
        (initialVideoState 0) 1).playlist := by
  decide

/-- C7: with admin_fingerprint_lock enabled, a bsl-admin-register with a
fingerprint while none is registered binds and persists it, marks the
socket verified, takes the admin seat and replies success; a register
whose fingerprint differs from the registered one replies failure with a
reason, leaves the state untouched (no admin status granted) and
schedules the disconnect after a grace period of at most one second; a
register with the matching fingerprint succeeds and marks the socket as
a verified admin. -/
theorem bsl_admin_register_lock_semantics (st : AdminRegState) (s fp : String)
    (hfp : fp ≠ "") :
    (st.registeredAdminFingerprint = none →
      bslAdminRegister true st s (some fp) =
        { state := { st with registeredAdminFingerprint := some fp
                             persistedAdminFingerprint := some fp
                             verifiedAdminSockets :=
                               if st.verifiedAdminSockets.contains s then
                                 st.verifiedAdminSockets
                               else s :: st.verifiedAdminSockets
                             adminSocketId := some s }
          success := true, reason := none, disconnectAfterMs := none }) ∧
    (∀ g, st.registeredAdminFingerprint = some g → fp ≠ g →
      bslAdminRegister true st s (some fp) =
        { state := st, success := false
          reason := some "Unauthorized device. This admin panel is locked to a different machine."
          disconnectAfterMs := some 1000 } ∧
      ∃ ms, (bslAdminRegister true st s (some fp)).disconnectAfterMs = some ms ∧
        ms ≤ 1000) ∧
    (st.registeredAdminFingerprint = some fp →
      (bslAdminRegister true st s (some fp)).success = true ∧
      s ∈ (bslAdminRegister true st s (some fp)).state.verifiedAdminSockets) := by
  have hbeq : (fp == "") = false := beq_false_of_ne hfp
  refine ⟨?_, ?_, ?_⟩
  · intro hreg
    simp [bslAdminRegister, hbeq, hreg, finishAdminRegister]
  · intro g hreg hne
    have hb : (g != fp) = true := by
      simp [bne, beq_false_of_ne (Ne.symm hne)]
    refine ⟨by simp [bslAdminRegister, hbeq, hreg, hb], 1000,
      by simp [bslAdminRegister, hbeq, hreg, hb], le_refl 1000⟩
  · intro hreg
    have hb : (fp != fp) = false := by simp
    constructor
    · simp [bslAdminRegister, hbeq, hreg, hb, finishAdminRegister]
    · simp only [bslAdminRegister, hbeq, Bool.false_eq_true, if_false, hreg, hb,
        finishAdminRegister]
      by_cases hm : s ∈ st.verifiedAdminSockets
      · simp [hm]
      · simp [hm]

/-- C7 witness: the lock semantics applied to a fresh state, a mismatch
and a match. -/
theorem bsl_admin_register_lock_semantics_witness :
    (bslAdminRegister true ⟨none, none, [], none⟩ "s1" (some "fp1")).success = true ∧
    (bslAdminRegister true ⟨some "fp1", some "fp1", ["s1"], some "s1"⟩ "s2"
        (some "fp2")).success = false ∧
    (bslAdminRegister true ⟨some "fp1", some "fp1", ["s1"], some "s1"⟩ "s2"
        (some "fp2")).disconnectAfterMs = some 1000 ∧
    "s1" ∈ (bslAdminRegister true ⟨some "fp1", some "fp1", ["s1"], some "s1"⟩ "s1"
        (some "fp1")).state.verifiedAdminSockets := by
  have h1 := (bsl_admin_register_lock_semantics ⟨none, none, [], none⟩ "s1" "fp1"
    (by decide)).1 rfl
  have h2 := ((bsl_admin_register_lock_semantics
    ⟨some "fp1", some "fp1", ["s1"], some "s1"⟩ "s2" "fp2" (by decide)).2.1 "fp1" rfl
    (by decide)).1
  have h3 := (bsl_admin_register_lock_semantics
    ⟨some "fp1", some "fp1", ["s1"], some "s1"⟩ "s1" "fp1" (by decide)).2.2 rfl
  exact ⟨by rw [h1], by rw [h2], by rw [h2], h3.2⟩

/-- C8 counterexample: in the reachable legacy state above, a join with
join_mode = sync sends the snapshot only to the joiner, yet the shared
playback state is not left untouched -- the connection handler realigns
audioTrack from 2 back to the playlist entry's stored selection 0. -/
theorem legacy_sync_join_realigns_tracks :
    legacyTraceState2.audioTrack = 2 ∧
    (legacyConnection "sync" legacyTraceSet.playlist legacyTraceState2 3).syncTo =
      .joinerOnly ∧
    (legacyConnection "sync" legacyTraceSet.playlist legacyTraceState2 3).videoState.audioTrack
      = 0 ∧
    (legacyConnection "sync" legacyTraceSet.playlist legacyTraceState2 3).videoState ≠
      legacyTraceState2 := by
  decide

/-- C8 (amended): in single-room mode, with join_mode = reset every
connection zeroes currentTime, refreshes lastUpdate and broadcasts the
sync snapshot to everyone; with join_mode = sync only the joiner
receives the snapshot and the playback position fields (isPlaying,
currentTime, lastUpdate) are unchanged -- the handler does however
realign the audio and subtitle track fields of the shared state to the
current playlist entry's stored selections on every connection. -/
theorem join_mode_semantics_amended (p : Playlist) (vs : VideoState) (now : Nat)
    (jm : String) :
    (jm = "reset" →
      (legacyConnection jm p vs now).videoState.currentTime = 0 ∧
      (legacyConnection jm p vs now).videoState.lastUpdate = now ∧
      (legacyConnection jm p vs now).syncTo = .everyone) ∧
    (jm = "sync" →
      (legacyConnection jm p vs now).syncTo = .joinerOnly ∧
      (legacyConnection jm p vs now).videoState.isPlaying = vs.isPlaying ∧
      (legacyConnection jm p vs now).videoState.currentTime = vs.currentTime ∧
      (legacyConnection jm p vs now).videoState.lastUpdate = vs.lastUpdate ∧
      (legacyConnection jm p vs now).videoState.audioTrack =
        (getCurrentTrackSelections p).1 ∧
      (legacyConnection jm p vs now).videoState.subtitleTrack =
        (getCurrentTrackSelections p).2) := by
  constructor
  · intro h; subst h; simp [legacyConnection]
  · intro h; subst h; simp [legacyConnection]

/-- C8 witness: the amended theorem applied in both join modes. -/
theorem join_mode_semantics_amended_witness :
    ((legacyConnection "reset" initialPlaylist (initialVideoState 7) 9).videoState.currentTime
        = 0 ∧
      (legacyConnection "reset" initialPlaylist (initialVideoState 7) 9).videoState.lastUpdate
        = 9 ∧
      (legacyConnection "reset" initialPlaylist (initialVideoState 7) 9).syncTo =
        .everyone) ∧
    (legacyConnection "sync" initialPlaylist (initialVideoState 7) 9).syncTo =
      .joinerOnly :=
  ⟨(join_mode_semantics_amended initialPlaylist (initialVideoState 7) 9 "reset").1 rfl,
   ((join_mode_semantics_amended initialPlaylist (initialVideoState 7) 9 "sync").2 rfl).1⟩

/-- C9: processing the same bsl-folder-selected payload twice in
succession, with the playlist, the persistent matches, the filesystem
and the configuration unchanged in between, returns the result of the
first processing unchanged: the stored per-client BSL record and the
bsl-match-result reply are identical. -/
theorem bsl_folder_selected_idempotent (advanced : Bool) (threshold : Nat)
    (diskSize : String → Option Int)
    (persistentMatches : List (String × List (String × String)))
    (playlist : Playlist) (status : List (String × BslClientStatus))
    (socketId : String) (payload : BslFolderPayload) :
    bslFolderSelected advanced threshold diskSize persistentMatches playlist
      (bslFolderSelected advanced threshold diskSize persistentMatches playlist
        status socketId payload).1 socketId payload =
    bslFolderSelected advanced threshold diskSize persistentMatches playlist
      status socketId payload := by
  unfold bslFolderSelected
  exact Prod.ext (updateAssoc_idem _ _ _) rfl

/-- C6 counterexample: for a pair with extension .xyz (absent from the
MIME table) and reported type text/plain, the code grants the MIME point
because every string starts with the empty family prefix, scoring 2 and
recording a match at threshold 2, while the criteria as described by the
claim (equal to the canonical MIME of the extension or sharing its
family) score only 1, below the threshold. -/
theorem advanced_match_mime_divergence :
    advancedMatchScore noDisk ⟨"a.xyz", none, some "text/plain"⟩ "b.xyz" = 2 ∧
    specMatchScore noDisk ⟨"a.xyz", none, some "text/plain"⟩ "b.xyz" = 1 ∧
    specMatchScore noDisk ⟨"a.xyz", none, some "text/plain"⟩ "b.xyz" < 2 ∧
    (computeMatchedVideos true 2 noDisk [] [mkVideo "b.xyz"]
      [⟨"a.xyz", none, some "text/plain"⟩]).lookup 0 = some "a.xyz" := by
  decide

/-- C6 (amended): with advanced matching on and no persistent match for
the client, an index is recorded in matchedVideos exactly when some
reported file scores at least the threshold against the entry at that
index, where the score awards one point each for case-insensitive name
equality, case-insensitive extension equality, reported size within
1.5 MiB of the statable on-disk size, and a non-empty reported MIME type
that equals the canonical MIME of the entry's extension or starts with
that canonical MIME's family prefix (the empty prefix, hence any type,
for an extension outside the table); the specification example scores
4 and matches at threshold 3. -/
theorem advanced_match_recorded_iff_threshold (threshold : Nat)
    (ds : String → Option Int) (videos : List Video) (files : List ClientFile)
    (i : Nat) :
    (((computeMatchedVideos true threshold ds [] videos files).lookup i).isSome ↔
      ∃ f ∈ files, ∃ v, videos[i]? = some v ∧
        threshold ≤ advancedMatchScore ds f v.filename) ∧
    advancedMatchScore (fun fn => if fn == "movie.mkv" then some 900000000 else none)
      ⟨"Movie.MKV", some 900001000, some "video/x-matroska"⟩ "movie.mkv" = 4 ∧
    (computeMatchedVideos true 3
      (fun fn => if fn == "movie.mkv" then some 900000000 else none) []
      [mkVideo "movie.mkv"]
      [⟨"Movie.MKV", some 900001000, some "video/x-matroska"⟩]).lookup 0 =
      some "Movie.MKV" := by
  refine ⟨?_, by decide, by decide⟩
  unfold computeMatchedVideos
  by_cases hv : videos.length > 0
  · simp only [hv, if_pos]
    have base : ((List.lookup i ([] : List (Nat × String))).isSome) = false := rfl
    rw [outer_fold_lookup, base, Bool.or_false, List.any_eq_true]
    constructor
    · rintro ⟨f, hf, hP⟩
      rw [List.any_eq_true] at hP
      obtain ⟨⟨j, v⟩, hiv, hQ⟩ := hP
      simp only [Bool.and_eq_true, beq_iff_eq, decide_eq_true_eq] at hQ
      obtain ⟨rfl, hsc⟩ := hQ
      exact ⟨f, hf, v, List.mk_mem_enum_iff_getElem?.mp hiv, hsc⟩
    · rintro ⟨f, hf, v, hget, hsc⟩
      refine ⟨f, hf, ?_⟩
      rw [List.any_eq_true]
      exact ⟨(i, v), List.mk_mem_enum_iff_getElem?.mpr hget, by simp [hsc]⟩
  · have hv0 : videos = [] := by
      cases videos with
      | nil => rfl
      | cons a l => simp at hv
    subst hv0
    simp

/-- C10 counterexample: deleting room AB23CD with the lower-cased code
ab23cd succeeds at the admin check, yet room-deleted goes out on the
raw-cased channel no member joined (the single member s1 receives
nothing and keeps its channel membership), while the claim says the
handler emits room-deleted to the members and detaches their sockets.
The registry part of the claim holds: deletion is keyed by the raw code,
so the Room stays in the map and getRoom still returns it. -/
theorem delete_room_case_mismatch_keeps_room :
    (deleteRoomHandler (fun _ => none)
        ⟨[("AB23CD", ⟨"AB23CD", "Party", some "fp", ["s1"]⟩)],
          [("s1", "AB23CD")], [("s1", "AB23CD")]⟩ "ab23cd" "fp").callbackSuccess = true ∧
    (deleteRoomHandler (fun _ => none)
        ⟨[("AB23CD", ⟨"AB23CD", "Party", some "fp", ["s1"]⟩)],
          [("s1", "AB23CD")], [("s1", "AB23CD")]⟩ "ab23cd" "fp").receivers = [] ∧
    (deleteRoomHandler (fun _ => none)
        ⟨[("AB23CD", ⟨"AB23CD", "Party", some "fp", ["s1"]⟩)],
          [("s1", "AB23CD")], [("s1", "AB23CD")]⟩ "ab23cd" "fp").receivers ≠ ["s1"] ∧
    (deleteRoomHandler (fun _ => none)
        ⟨[("AB23CD", ⟨"AB23CD", "Party", some "fp", ["s1"]⟩)],
          [("s1", "AB23CD")], [("s1", "AB23CD")]⟩ "ab23cd" "fp").ctx.memberships =
      [("s1", "AB23CD")] ∧
    (deleteRoomHandler (fun _ => none)
        ⟨[("AB23CD", ⟨"AB23CD", "Party", some "fp", ["s1"]⟩)],
          [("s1", "AB23CD")], [("s1", "AB23CD")]⟩ "ab23cd" "fp").ctx.rooms =
      [("AB23CD", ⟨"AB23CD", "Party", some "fp", ["s1"]⟩)] ∧
    getRoomR (deleteRoomHandler (fun _ => none)
        ⟨[("AB23CD", ⟨"AB23CD", "Party", some "fp", ["s1"]⟩)],
          [("s1", "AB23CD")], [("s1", "AB23CD")]⟩ "ab23cd" "fp").ctx.rooms "ab23cd" =
      some ⟨"AB23CD", "Party", some "fp", ["s1"]⟩ := by
  decide

/-- C10 (amended): for a delete-room from the admin whose roomCode field
differs in case from the stored upper-case code (so the raw code is
neither a registry key nor a joined channel), the handler locates the
room case-insensitively and accepts the request, but the room-deleted
emission goes out on the raw-cased channel and reaches no member, the
channel memberships survive, the member entries are removed from the
socket-room map, and the registry deletion keyed by the raw code fails:
the Room object remains in the rooms map and a subsequent getRoom with
the same code still returns it. -/
theorem delete_room_case_mismatch_amended (persistedFp : String → Option String)
    (ctx : DeleteRoomCtx) (code fingerprint : String) (room : RoomRec)
    (hfind : ctx.rooms.lookup (upperStr code) = some room)
    (hadmin : room.adminFingerprint = some fingerprint)
    (hraw : ctx.rooms.lookup code = none)
    (hjoin : channelMembers ctx.memberships code = []) :
    (deleteRoomHandler persistedFp ctx code fingerprint).callbackSuccess = true ∧
    (deleteRoomHandler persistedFp ctx code fingerprint).receivers = [] ∧
    (deleteRoomHandler persistedFp ctx code fingerprint).emitChannel = some code ∧
    (deleteRoomHandler persistedFp ctx code fingerprint).ctx.rooms = ctx.rooms ∧
    getRoomR (deleteRoomHandler persistedFp ctx code fingerprint).ctx.rooms code =
      some room ∧
    (deleteRoomHandler persistedFp ctx code fingerprint).ctx.socketRoomMap =
      ctx.socketRoomMap.filter (fun m => !room.clients.contains m.1) := by
  have hck : roomIsAdmin (persistedFp room.code) room fingerprint = (true, room) := by
    simp [roomIsAdmin, hadmin]
  have hupd : updateAssoc ctx.rooms (upperStr code) room = ctx.rooms :=
    updateAssoc_of_lookup_eq _ _ _ hfind
  have hdel : deleteRoomR ctx.rooms code = (ctx.rooms, false) := by
    simp [deleteRoomR, hraw]
  simp only [deleteRoomHandler, getRoomR, hfind, hck, Bool.not_true,
    Bool.false_eq_true, if_false, hupd, hjoin, hdel]
  simp [hfind]

/-- C10 witness: the amended theorem applied to the concrete room. -/
theorem delete_room_case_mismatch_amended_witness :
    (deleteRoomHandler (fun _ => none)
        ⟨[("AB23CD", ⟨"AB23CD", "Party", some "fp", ["s1"]⟩)],
          [("s1", "AB23CD")], [("s1", "AB23CD")]⟩ "ab23cd" "fp").callbackSuccess = true ∧
    (deleteRoomHandler (fun _ => none)
        ⟨[("AB23CD", ⟨"AB23CD", "Party", some "fp", ["s1"]⟩)],
          [("s1", "AB23CD")], [("s1", "AB23CD")]⟩ "ab23cd" "fp").receivers = [] ∧
    (deleteRoomHandler (fun _ => none)
        ⟨[("AB23CD", ⟨"AB23CD", "Party", some "fp", ["s1"]⟩)],
          [("s1", "AB23CD")], [("s1", "AB23CD")]⟩ "ab23cd" "fp").emitChannel =
      some "ab23cd" ∧
    (deleteRoomHandler (fun _ => none)
        ⟨[("AB23CD", ⟨"AB23CD", "Party", some "fp", ["s1"]⟩)],
          [("s1", "AB23CD")], [("s1", "AB23CD")]⟩ "ab23cd" "fp").ctx.rooms =
      [("AB23CD", ⟨"AB23CD", "Party", some "fp", ["s1"]⟩)] ∧
    getRoomR (deleteRoomHandler (fun _ => none)
        ⟨[("AB23CD", ⟨"AB23CD", "Party", some "fp", ["s1"]⟩)],
          [("s1", "AB23CD")], [("s1", "AB23CD")]⟩ "ab23cd" "fp").ctx.rooms "ab23cd" =
      some ⟨"AB23CD", "Party", some "fp", ["s1"]⟩ ∧
    (deleteRoomHandler (fun _ => none)
        ⟨[("AB23CD", ⟨"AB23CD", "Party", some "fp", ["s1"]⟩)],
          [("s1", "AB23CD")], [("s1", "AB23CD")]⟩ "ab23cd" "fp").ctx.socketRoomMap =
      ([("s1", "AB23CD")] : List (String × String)).filter
        (fun m => !(⟨"AB23CD", "Party", some "fp", ["s1"]⟩ : RoomRec).clients.contains m.1) :=
  delete_room_case_mismatch_amended (fun _ => none)
    ⟨[("AB23CD", ⟨"AB23CD", "Party", some "fp", ["s1"]⟩)],
      [("s1", "AB23CD")], [("s1", "AB23CD")]⟩ "ab23cd" "fp"
    ⟨"AB23CD", "Party", some "fp", ["s1"]⟩
    (by decide) (by decide) (by decide) (by decide)

end SyncPlayer
